import Mathlib

/-!
Verification development for `SUPIR/util.py`: a shallow embedding of its
checkpoint-loading helpers and image/tensor conversion functions, with
theorems settling the specified properties.

Numeric conventions of the embedding:
* Python/NumPy floating-point values are modelled as rationals (`ℚ`); the
  properties proved below depend only on values that are exact in binary
  floating point (small integers and their quotients by powers of two), or
  are independent of rounding error (divisibility of a result of the form
  `round _ * 64`).
* `numpy.round` and Python's built-in `round` both round halves to even;
  `roundHalfEven` models this.
* `astype(np.uint8)` after a `clip(0, 255)` truncates toward zero, which on
  the clipped non-negative range coincides with the floor.
-/

/-- Round-half-to-even, the rounding used by Python `round` and `np.round`. -/
def roundHalfEven (x : ℚ) : ℤ :=
  let f : ℤ := ⌊x⌋
  let r : ℚ := x - f
  if r < 1/2 then f
  else if 1/2 < r then f + 1
  else if f % 2 = 0 then f else f + 1

/-- Model of `clip(0, 255)` followed by `astype(np.uint8)` on an exact value. -/
def u8OfRat (q : ℚ) : ℕ :=
  (⌊max 0 (min q 255)⌋).toNat

/- ### `convert_dtype` (util.py lines 181-189) -/

/-- The three torch floating dtypes reachable from `convert_dtype`. -/
inductive TorchDtype
  | float32
  | float16
  | bfloat16
  deriving DecidableEq, Repr

/-- Errors raised by the functions of this module. -/
inductive PyErr
  | notImplementedError
  | assertionError (msg : String)
  deriving DecidableEq, Repr

/-- Model of `convert_dtype(dtype_str)`: maps the three precision names to torch
dtypes and raises `NotImplementedError` on anything else. -/
def convert_dtype (dtype_str : String) : Except PyErr TorchDtype :=
  if dtype_str = "fp32" then .ok .float32
  else if dtype_str = "fp16" then .ok .float16
  else if dtype_str = "bf16" then .ok .bfloat16
  else .error .notImplementedError

/- ### `get_state_dict` / `load_state_dict` (util.py lines 14-27) -/

/-- A deserialized Python value as far as checkpoint loading observes it:
a (possibly nested) string-keyed dictionary whose leaves are tensors,
identified here by a number. -/
inductive PyVal
  | tensor (id : ℕ)
  | dict (entries : List (String × PyVal))

/-- Model of `d.get(key, d)` on a dictionary value (identity on the default branch). -/
def PyVal.getOrSelf (d : PyVal) (key : String) : PyVal :=
  match d with
  | .dict es =>
    match es.lookup key with
    | some v => v
    | none => d
  | _ => d

/-- Model of `get_state_dict(d)`, which is `d.get` at key `state_dict` with default `d`. -/
def get_state_dict (d : PyVal) : PyVal :=
  d.getOrSelf "state_dict"

/-- The basename of a POSIX path: everything after the last `/`. -/
def posixBasename (path : List Char) : List Char :=
  (path.reverse.takeWhile (fun c => c ≠ '/')).reverse

/-- The extension part of `os.path.splitext`, dot included: the suffix of
the basename starting at its last dot, unless every character before that
dot is itself a dot (leading dots do not start an extension). -/
def splitextExt (path : String) : String :=
  let base := posixBasename path.toList
  let afterDotRev := base.reverse.takeWhile (fun c => c ≠ '.')
  if afterDotRev.length = base.length then ""
  else
    let stem := base.take (base.length - afterDotRev.length - 1)
    if stem.all (fun c => c = '.') then ""
    else String.mk (base.drop (base.length - afterDotRev.length - 1))

/-- Model of `str.lower()` restricted to ASCII, which is all we compare against. -/
def pyLower (s : String) : String :=
  String.mk (s.toList.map Char.toLower)

/-- Model of `load_state_dict(ckpt_path, location)` with the on-disk content already
deserialized to `content` (both `torch.load` and `safetensors` reading are
abstracted to this value).  Dispatches on the lowercased extension; the
safetensors branch unwraps `state_dict` once (line 25 only), while the
generic branch unwraps twice (line 24 and line 25). -/
def load_state_dict (ckpt_path : String) (content : PyVal) : PyVal :=
  if pyLower (splitextExt ckpt_path) = ".safetensors" then
    get_state_dict content
  else
    get_state_dict (get_state_dict content)

/- ### `HWC3` (util.py lines 108-124) -/

/-- A NumPy `uint8` array as `HWC3` receives it: 2-dimensional of shape
`(H, W)` or 3-dimensional of shape `(H, W, C)`.  Sample values are naturals
(intended `< 256`); data is a total indexing function. -/
inductive NpArray
  | d2 (H W : ℕ) (data : ℕ → ℕ → ℕ)
  | d3 (H W C : ℕ) (data : ℕ → ℕ → ℕ → ℕ)

/-- A 3-dimensional `uint8` array, the return shape of `HWC3`. -/
structure Arr3 where
  H : ℕ
  W : ℕ
  C : ℕ
  data : ℕ → ℕ → ℕ → ℕ

/-- The `C == 4` branch of `HWC3`: composite the color channels over a
white background with the alpha channel (scaled to `[0,1]`) as weight,
then clip and cast back to `uint8`. -/
def alphaComposite (d : ℕ → ℕ → ℕ → ℕ) (i j k : ℕ) : ℕ :=
  let alpha : ℚ := (d i j 3 : ℚ) / 255
  u8OfRat ((d i j k : ℚ) * alpha + 255 * (1 - alpha))

/-- Model of `HWC3(x)`: normalizes a 1-, 3- or 4-channel `uint8` array to 3
channels; any other channel count fails the assertion (`none`). -/
def HWC3 (x : NpArray) : Option Arr3 :=
  match x with
  | .d2 H W d =>
    -- `x[:, :, None]` then the `C == 1` branch: replicate into 3 channels.
    some ⟨H, W, 3, fun i j _ => d i j⟩
  | .d3 H W C d =>
    if C = 3 then some ⟨H, W, 3, d⟩
    else if C = 1 then some ⟨H, W, 3, fun i j _ => d i j 0⟩
    else if C = 4 then some ⟨H, W, 3, alphaComposite d⟩
    else none

/- ### `upscale_image` / `fix_resize` (util.py lines 127-156) -/

/-- The two OpenCV interpolation modes this module selects between. -/
inductive CvInterp
  | lanczos4
  | area
  deriving DecidableEq, Repr

/-- The observable geometry of `upscale_image(input_image, upscale,
min_size, unit_resolution)`: the `(H, W)` passed to `cv2.resize` and the
interpolation flag chosen.  The pixel resampling itself is OpenCV's and is
not modelled. -/
def upscale_image_calc (H W : ℕ) (upscale : ℚ) (min_size : Option ℚ)
    (unit_resolution : ℤ) : ℤ × ℤ × CvInterp :=
  let Hf : ℚ := (H : ℚ) * upscale
  let Wf : ℚ := (W : ℚ) * upscale
  let p : ℚ × ℚ :=
    match min_size with
    | some m =>
      if min Hf Wf < m then
        let u := m / min Wf Hf
        (Hf * u, Wf * u)
      else (Hf, Wf)
    | none => (Hf, Wf)
  let Hr : ℤ := roundHalfEven (p.1 / (unit_resolution : ℚ)) * unit_resolution
  let Wr : ℤ := roundHalfEven (p.2 / (unit_resolution : ℚ)) * unit_resolution
  (Hr, Wr, if 1 < upscale then .lanczos4 else .area)

/-- The observable geometry of `fix_resize(input_image, size,
unit_resolution)`: scale so the shorter side matches `size`, round to the
resolution unit, and choose the interpolation from the computed scale. -/
def fix_resize_calc (H W : ℕ) (size : ℚ) (unit_resolution : ℤ) :
    ℤ × ℤ × CvInterp :=
  let upscale : ℚ := size / min (H : ℚ) (W : ℚ)
  let Hf : ℚ := (H : ℚ) * upscale
  let Wf : ℚ := (W : ℚ) * upscale
  let Hr : ℤ := roundHalfEven (Hf / (unit_resolution : ℚ)) * unit_resolution
  let Wr : ℤ := roundHalfEven (Wf / (unit_resolution : ℚ)) * unit_resolution
  (Hr, Wr, if 1 < upscale then .lanczos4 else .area)

/- ### `PIL2Tensor` / `Tensor2PIL` (util.py lines 71-105) -/

/-- A decoded PIL image: a width, a height and an RGB pixel function
`pix x y c` with `uint8` samples (naturals, intended `< 256`). -/
structure PILImage where
  width : ℤ
  height : ℤ
  pix : ℕ → ℕ → ℕ → ℕ

/-- A torch tensor: a shape and a total multi-index data function. -/
structure Tensor where
  shape : List ℤ
  data : List ℕ → ℚ

/-- Model of `x.unsqueeze(0)`. -/
def Tensor.unsqueeze0 (t : Tensor) : Tensor :=
  ⟨1 :: t.shape, fun idx => t.data idx.tail⟩

/-- Model of `x.squeeze(0)`. -/
def Tensor.squeeze0 (t : Tensor) : Tensor :=
  ⟨t.shape.tail, fun idx => t.data (0 :: idx)⟩

/-- The result of `PIL2Tensor`: the channel-first tensor plus the two
pre-quantization dimensions `h0`, `w0`. -/
structure PILToTensorResult where
  tensor : Tensor
  h0 : ℤ
  w0 : ℤ

/-- The size arithmetic of `PIL2Tensor` (util.py lines 76-90), split out of
the conversion: returns `((wR, hR), h0, w0)` where `(wR, hR)` is the
quantized resize target handed to `img.resize` and `(h0, w0)` the
pre-quantization dimensions returned to the caller. -/
def PIL2TensorTarget (img : PILImage) (upsacle : ℚ) (min_size : ℚ)
    (fix_resize : Option ℚ) : (ℤ × ℤ) × ℤ × ℤ :=
  let w : ℚ := (img.width : ℚ) * upsacle
  let h : ℚ := (img.height : ℚ) * upsacle
  let w0 : ℤ := roundHalfEven w
  let h0 : ℤ := roundHalfEven h
  let p : ℚ × ℚ :=
    if min w h < min_size then
      let u := min_size / min w h
      (w * u, h * u)
    else (w, h)
  let q : (ℚ × ℚ) × ℤ × ℤ :=
    match fix_resize with
    | some fr =>
      let u := fr / min p.1 p.2
      let w2 := p.1 * u
      let h2 := p.2 * u
      ((w2, h2), roundHalfEven h2, roundHalfEven w2)
    | none => ((p.1, p.2), h0, w0)
  ((roundHalfEven (q.1.1 / 64) * 64, roundHalfEven (q.1.2 / 64) * 64),
   q.2.1, q.2.2)

/-- Model of `PIL2Tensor(img, upsacle, min_size, fix_resize)`.  PIL's
bicubic resampling is external; it is modelled by the parameter `resize`,
which stands for `img.resize((w, h), Image.BICUBIC)` (theorems assume only
that it honors the requested size).  The resized samples are clipped
(`round().clip(0,255)` is the identity on `uint8` data up to the clip),
mapped from `[0, 255]` to `[-1, 1]`, and permuted to channel-first. -/
def PIL2Tensor (resize : PILImage → ℤ → ℤ → PILImage) (img : PILImage)
    (upsacle : ℚ) (min_size : ℚ) (fix_resize : Option ℚ) :
    PILToTensorResult :=
  let t := PIL2TensorTarget img upsacle min_size fix_resize
  let x := resize img t.1.1 t.1.2
  { tensor :=
      ⟨[3, x.height, x.width],
       fun idx =>
         match idx with
         | [c, i, j] => (min (x.pix j i c) 255 : ℚ) / 255 * 2 - 1
         | _ => 0⟩
    h0 := t.2.1
    w0 := t.2.2 }

/-- Model of `Tensor2PIL(x, h0, w0)`.  Torch's bicubic `interpolate` is external; it
is modelled by the parameter `interp`, which stands for
`interpolate(x, size=(h0, w0), mode=bicubic)` (theorems assume only that
it keeps the leading dimensions and sets the trailing two to the requested
size).  The result is squeezed, permuted back to height-width-channel,
mapped from `[-1, 1]` to `[0, 255]`, clipped, cast to `uint8` and wrapped
as an image. -/
def Tensor2PIL (interp : Tensor → ℤ → ℤ → Tensor) (x : Tensor)
    (h0 w0 : ℤ) : PILImage :=
  let x1 := (interp x.unsqueeze0 h0 w0).squeeze0
  -- `x1` has layout `(C, H, W)`; after `permute(1, 2, 0)` the array has
  -- shape `(H, W, C)`, so `Image.fromarray` yields height `x1.shape[1]`
  -- and width `x1.shape[2]`, with pixel `(x, y, c)` read from
  -- `x1.data[c, y, x]`.
  { width := x1.shape.getD 2 0
    height := x1.shape.getD 1 0
    pix := fun xj yi c => u8OfRat (x1.data [c, yi, xj] * (255/2) + 255/2) }

/- ### `create_SUPIR_model` (util.py lines 30-68) -/

/-- The observable steps of `create_SUPIR_model`, in order: the
configuration read, the model instantiation, every `printt` log line, and
every successful application of a checkpoint's state dict to the model. -/
inductive Event
  | configLoad (path : String)
  | modelInstantiate
  | logLine (msg : String)
  | ckptApply (path : String)
  deriving DecidableEq, Repr

/-- The string Python interpolates for a path argument in the log lines
(`None` when the value is `None`). -/
def pathStr (p : Option String) : String :=
  match p with
  | none => "None"
  | some s => s

/-- The inner `load_to_device(ckpt_path)` closure (util.py lines 43-54):
model parameters are abstracted to a value of `ℕ` and
`model.load_state_dict(state_dict, strict=False)` to the external
`applySD`; `fs` answers `os.path.exists`.  A path that is `None`, empty
(falsy) or missing on disk skips the load with a log line; nothing is
raised in that case. -/
def load_to_device (fs : String → Bool) (applySD : String → ℕ → ℕ)
    (params : ℕ) (ckpt_path : Option String) :
    ℕ × List Event × Option PyErr :=
  let ev0 := [Event.logLine ("Loading state_dict from [" ++ pathStr ckpt_path ++ "]")]
  match ckpt_path with
  | some p =>
    if p ≠ "" ∧ fs p then
      (applySD p params,
       ev0 ++ [Event.ckptApply p,
               Event.logLine ("Loaded state_dict from [" ++ p ++ "]")],
       none)
    else
      (params,
       ev0 ++ [Event.logLine ("No checkpoint found at [" ++ pathStr ckpt_path ++ "]")],
       none)
  | none =>
    (params,
     ev0 ++ [Event.logLine ("No checkpoint found at [None]")],
     none)

/-- The fixed relative path for a tag-selected SUPIR checkpoint
(util.py line 62); the `os.path.abspath`/`__file__` resolution is
abstracted, keeping the relative form rooted at the module directory. -/
def supir_ckpt_path (sign : String) : String :=
  "../models/v0" ++ sign ++ ".ckpt"

/-- The outcome of `create_SUPIR_model`: the events that occurred, the
final abstract parameter state, and the error raised, if any. -/
structure CreateResult where
  events : List Event
  params : ℕ
  raised : Option PyErr
  deriving DecidableEq, Repr

/-- The line-66 `printt` message, emitted after all checkpoint handling on
every non-raising path. -/
def finalLogLine (config_path device : String) : Event :=
  Event.logLine ("Loaded model config from [" ++ config_path ++
    "] and moved to " ++ device)

/-- Model of `create_SUPIR_model(config_path, supir_sign, device, ckpt, sampler)`
as a trace over the file system `fs`; `initParams` abstracts the freshly
instantiated model's parameters and `applySD` the state-dict application.
`config_SDXL_CKPT` is the `SDXL_CKPT` entry of the configuration file
(overridden by a truthy `ckpt` argument).  A truthy `supir_sign` outside
`{'F', 'Q'}` fails the line-61 assertion; execution up to that point has
already happened, and the line-66 log is emitted only on the non-raising
paths (the line-65 `model.sampler` assignment touches no file and prints
nothing, so it leaves no event). -/
def create_SUPIR_model (fs : String → Bool) (applySD : String → ℕ → ℕ)
    (initParams : ℕ) (config_path : String)
    (config_SDXL_CKPT : Option String) (supir_sign : Option String)
    (device : String) (ckpt : Option String) : CreateResult :=
  let ev0 := [Event.configLoad config_path]
  let sdxl : Option String :=
    match ckpt with
    | some c => if c = "" then config_SDXL_CKPT else some c
    | none => config_SDXL_CKPT
  let ev1 := ev0 ++
    [Event.logLine ("Loading model from [" ++ config_path ++ "]"),
     Event.modelInstantiate,
     Event.logLine ("Loaded model from [" ++ config_path ++ "]")]
  let r1 := load_to_device fs applySD initParams sdxl
  let ev2 := ev1 ++ r1.2.1
  match supir_sign with
  | none => ⟨ev2 ++ [finalLogLine config_path device], r1.1, none⟩
  | some s =>
    if s = "" then ⟨ev2 ++ [finalLogLine config_path device], r1.1, none⟩
    else if s = "F" ∨ s = "Q" then
      let r2 := load_to_device fs applySD r1.1 (some (supir_ckpt_path s))
      ⟨ev2 ++ r2.2.1 ++ [finalLogLine config_path device], r2.1, none⟩
    else
      ⟨ev2, r1.1, some (.assertionError "supir_sign must be either \x27F\x27 or \x27Q\x27")⟩

/- ### Concrete instances used to exercise the theorems -/

/-- A size-honoring stand-in for PIL's resampler: correct target size,
pixels read from the source unchanged. -/
def resizeModel (im : PILImage) (w h : ℤ) : PILImage :=
  ⟨w, h, im.pix⟩

/-- A size-honoring stand-in for torch `interpolate`: keeps the leading
dimensions and replaces the trailing two with the requested size. -/
def interpModel (t : Tensor) (h w : ℤ) : Tensor :=
  ⟨t.shape.take 2 ++ [h, w], t.data⟩

/-- A concrete 100 × 80 test image. -/
def imgProbe : PILImage :=
  ⟨100, 80, fun _ _ _ => 7⟩

/-- A concrete grayscale sample function. -/
def grayProbe (i j : ℕ) : ℕ :=
  i + 2 * j

/-- A concrete RGBA sample function whose alpha channel is 255. -/
def rgbaProbe (i j k : ℕ) : ℕ :=
  if k = 3 then 255 else (10 * i + j + k) % 256

/-- The `create_SUPIR_model` run used as the ordering counterexample:
every path exists on disk and the tag is the invalid `"X"`. -/
def c2run : CreateResult :=
  create_SUPIR_model (fun _ => true) (fun _ n => n + 1) 0
    "options/SUPIR_v0.yaml" (some "ckpt/sd_xl_base.safetensors")
    (some "X") "cpu" none

/- ### Helper lemmas -/

/-- Rounding an integer value is the identity. -/
theorem roundHalfEven_intCast (n : ℤ) : roundHalfEven (n : ℚ) = n := by
  simp [roundHalfEven]

/-- Clip-and-cast is the identity on in-range `uint8` values. -/
theorem u8OfRat_natCast (n : ℕ) (h : n ≤ 255) : u8OfRat (n : ℚ) = n := by
  unfold u8OfRat
  have h1 : min (n : ℚ) 255 = (n : ℚ) := min_eq_left (by exact_mod_cast h)
  have h2 : max 0 (n : ℚ) = (n : ℚ) := max_eq_right (by positivity)
  rw [h1, h2]
  simp

/-- Evaluation rule for `roundHalfEven` when the fractional part is below
one half. -/
theorem roundHalfEven_of_lt_half (x : ℚ) (n : ℤ) (hf : ⌊x⌋ = n)
    (hr : x - n < 1/2) : roundHalfEven x = n := by
  simp only [roundHalfEven, hf]
  rw [if_pos hr]

/- ### Claim theorems -/

/-- C6: for a 100×100 input, `upscale_image` with `upscale = 2`,
`min_size = None` and `unit_resolution = 64` resizes to exactly 192×192
(`round(200/64)*64 = 192`), using Lanczos interpolation. -/
theorem upscale_image_100x100_by2_is_192 :
    upscale_image_calc 100 100 2 none 64 = (192, 192, CvInterp.lanczos4) := by
  have hr : roundHalfEven (25/8 : ℚ) = 3 := by
    apply roundHalfEven_of_lt_half
    · rw [Int.floor_eq_iff]
      norm_num
    · norm_num [Int.floor_eq_iff]
  simp only [upscale_image_calc]
  norm_num
  rw [hr]
  norm_num

/-- C9: `convert_dtype` maps `"fp32"`, `"fp16"`, `"bf16"` to three
pairwise-distinct dtypes, and every other string raises
`NotImplementedError`. -/
theorem convert_dtype_spec :
    convert_dtype "fp32" = .ok .float32 ∧
    convert_dtype "fp16" = .ok .float16 ∧
    convert_dtype "bf16" = .ok .bfloat16 ∧
    (TorchDtype.float32 ≠ TorchDtype.float16 ∧
     TorchDtype.float32 ≠ TorchDtype.bfloat16 ∧
     TorchDtype.float16 ≠ TorchDtype.bfloat16) ∧
    ∀ s : String, s ≠ "fp32" → s ≠ "fp16" → s ≠ "bf16" →
      convert_dtype s = .error .notImplementedError := by
  refine ⟨rfl, rfl, rfl, ⟨by decide, by decide, by decide⟩, ?_⟩
  intro s h1 h2 h3
  simp [convert_dtype, h1, h2, h3]

/-- Witness for C9 at the concrete unsupported name `"int8"`. -/
theorem convert_dtype_spec_witness :
    convert_dtype "int8" = .error .notImplementedError :=
  convert_dtype_spec.2.2.2.2 "int8" (by decide) (by decide) (by decide)

/-- C10: on a non-safetensors path `load_state_dict` unwraps the
`state_dict` key twice, so a mapping nested two levels deep is returned
from the innermost level; on a safetensors path the flat mapping is still
unwrapped once when it happens to contain a `state_dict` key. -/
theorem load_state_dict_unwrap :
    (∀ (path : String) (outer inner : List (String × PyVal)) (v : PyVal),
        pyLower (splitextExt path) ≠ ".safetensors" →
        outer.lookup "state_dict" = some (PyVal.dict inner) →
        inner.lookup "state_dict" = some v →
        load_state_dict path (PyVal.dict outer) = v) ∧
    (∀ (path : String) (flat : List (String × PyVal)) (v : PyVal),
        pyLower (splitextExt path) = ".safetensors" →
        flat.lookup "state_dict" = some v →
        load_state_dict path (PyVal.dict flat) = v) := by
  constructor
  · intro path outer inner v hext hl1 hl2
    simp [load_state_dict, hext, get_state_dict, PyVal.getOrSelf, hl1, hl2]
  · intro path flat v hext hl
    simp [load_state_dict, hext, get_state_dict, PyVal.getOrSelf, hl]

/-- Witness for C10: a doubly wrapped `.ckpt` content and a flat
`.safetensors` content holding a `state_dict` key. -/
theorem load_state_dict_unwrap_witness :
    load_state_dict "model.ckpt"
        (PyVal.dict [("state_dict",
          PyVal.dict [("state_dict", PyVal.tensor 7)])]) = PyVal.tensor 7 ∧
    load_state_dict "model.safetensors"
        (PyVal.dict [("state_dict", PyVal.tensor 9),
                     ("weight", PyVal.tensor 1)]) = PyVal.tensor 9 :=
  ⟨load_state_dict_unwrap.1 "model.ckpt" _ _ _ (by decide) rfl rfl,
   load_state_dict_unwrap.2 "model.safetensors" _ _ (by decide) rfl⟩

/-- C5 counterexample: with `upscale = 1/2` and `min_size = 512`, a
100×100 input is resized to 512×512 — an effective upscale — yet
`upscale_image` selects area-average interpolation, because the flag is
chosen from the raw `upscale` parameter alone. -/
theorem upscale_image_area_despite_upscale :
    upscale_image_calc 100 100 (1/2) (some 512) 64 = (512, 512, CvInterp.area) ∧
    (100 : ℤ) < 512 := by
  have h8 : roundHalfEven (8 : ℚ) = 8 := by
    have := roundHalfEven_intCast 8
    norm_num at this
    exact this
  constructor
  · simp only [upscale_image_calc]
    norm_num
    rw [h8]
    norm_num
  · norm_num

/-- C5 amended: `upscale_image` selects Lanczos exactly when its raw
`upscale` parameter exceeds 1 and area-average otherwise (so at scale
exactly 1 it uses area-average), and `fix_resize` selects Lanczos exactly
when its computed shorter-side ratio exceeds 1; neither choice takes the
`min_size` floor or the unit rounding into account, so the flag can
disagree with the effective resize direction. -/
theorem interp_flag_from_scale_param :
    (∀ (H W : ℕ) (upscale : ℚ) (min_size : Option ℚ) (unit : ℤ),
        (upscale_image_calc H W upscale min_size unit).2.2 =
          if 1 < upscale then CvInterp.lanczos4 else CvInterp.area) ∧
    (∀ (H W : ℕ) (size : ℚ) (unit : ℤ),
        (fix_resize_calc H W size unit).2.2 =
          if 1 < size / min (H : ℚ) (W : ℚ) then CvInterp.lanczos4
          else CvInterp.area) := by
  exact ⟨fun _ _ _ _ _ => rfl, fun _ _ _ _ => rfl⟩

/-- C3: when the checkpoint path does not exist on disk, `load_to_device`
leaves the model parameters unchanged, raises nothing, and logs the two
lines (the attempt and the missing-checkpoint notice). -/
theorem load_to_device_missing_is_noop (fs : String → Bool)
    (applySD : String → ℕ → ℕ) (params : ℕ) (p : String)
    (hmiss : fs p = false) :
    load_to_device fs applySD params (some p) =
      (params,
       [Event.logLine ("Loading state_dict from [" ++ p ++ "]"),
        Event.logLine ("No checkpoint found at [" ++ p ++ "]")],
       none) := by
  simp [load_to_device, pathStr, hmiss]

/-- Witness for C3 on a concrete absent path. -/
theorem load_to_device_missing_is_noop_witness :
    load_to_device (fun _ => false) (fun _ n => n + 1) 5 (some "a/b.ckpt") =
      (5,
       [Event.logLine ("Loading state_dict from [" ++ "a/b.ckpt" ++ "]"),
        Event.logLine ("No checkpoint found at [" ++ "a/b.ckpt" ++ "]")],
       none) :=
  load_to_device_missing_is_noop (fun _ => false) (fun _ n => n + 1) 5
    "a/b.ckpt" rfl

/-- C8: a 2-dimensional `(H, W)` array is normalized to shape `(H, W, 3)`
with all three channels equal to the input. -/
theorem HWC3_gray_replicates (H W : ℕ) (d : ℕ → ℕ → ℕ) (a : Arr3)
    (hr : HWC3 (NpArray.d2 H W d) = some a) (i j k : ℕ) (_hk : k < 3) :
    a.H = H ∧ a.W = W ∧ a.C = 3 ∧ a.data i j k = d i j := by
  have h2 : HWC3 (NpArray.d2 H W d) = some ⟨H, W, 3, fun i j _ => d i j⟩ := rfl
  rw [h2, Option.some.injEq] at hr
  subst hr
  exact ⟨rfl, rfl, rfl, rfl⟩

/-- Witness for C8 on a concrete 2×2 grayscale array. -/
theorem HWC3_gray_replicates_witness :
    (Arr3.mk 2 2 3 (fun i j _ => grayProbe i j)).H = 2 ∧
    (Arr3.mk 2 2 3 (fun i j _ => grayProbe i j)).W = 2 ∧
    (Arr3.mk 2 2 3 (fun i j _ => grayProbe i j)).C = 3 ∧
    (Arr3.mk 2 2 3 (fun i j _ => grayProbe i j)).data 0 1 2 = grayProbe 0 1 :=
  HWC3_gray_replicates 2 2 grayProbe _ rfl 0 1 2 (by decide)

/-- C7: on a 4-channel `uint8` array whose alpha channel is 255
everywhere, `HWC3` returns the first three channels exactly unchanged
(shape `(H, W, 3)`), the white compositing being the identity there. -/
theorem HWC3_alpha255_preserves (H W : ℕ) (d : ℕ → ℕ → ℕ → ℕ) (a : Arr3)
    (hb : ∀ i j k, d i j k ≤ 255)
    (ha : ∀ i j, d i j 3 = 255)
    (hr : HWC3 (NpArray.d3 H W 4 d) = some a)
    (i j k : ℕ) (_hk : k < 3) :
    a.H = H ∧ a.W = W ∧ a.C = 3 ∧ a.data i j k = d i j k := by
  have h4 : HWC3 (NpArray.d3 H W 4 d) = some ⟨H, W, 3, alphaComposite d⟩ := rfl
  rw [h4, Option.some.injEq] at hr
  subst hr
  refine ⟨rfl, rfl, rfl, ?_⟩
  show alphaComposite d i j k = d i j k
  unfold alphaComposite
  rw [ha i j]
  norm_num
  exact u8OfRat_natCast _ (hb i j k)

/-- Witness for C7 on a concrete 2×2 RGBA array with constant alpha 255. -/
theorem HWC3_alpha255_preserves_witness :
    (Arr3.mk 2 2 3 (alphaComposite rgbaProbe)).H = 2 ∧
    (Arr3.mk 2 2 3 (alphaComposite rgbaProbe)).W = 2 ∧
    (Arr3.mk 2 2 3 (alphaComposite rgbaProbe)).C = 3 ∧
    (Arr3.mk 2 2 3 (alphaComposite rgbaProbe)).data 1 0 2 = rgbaProbe 1 0 2 :=
  HWC3_alpha255_preserves 2 2 rgbaProbe _
    (fun i j k => by
      unfold rgbaProbe
      split
      · exact le_refl 255
      · exact Nat.le_of_lt_succ (Nat.mod_lt _ (by norm_num)))
    (fun i j => rfl) rfl 1 0 2 (by decide)

/-- C1: the tensor returned by `PIL2Tensor` has shape `[3, h, w]` with the
trailing height and width each exactly divisible by 64, for every image,
upscale, minimum-size parameter and optional forced resize. -/
theorem PIL2Tensor_shape_div64 (resize : PILImage → ℤ → ℤ → PILImage)
    (hres : ∀ im w h, (resize im w h).width = w ∧ (resize im w h).height = h)
    (img : PILImage) (upsacle min_size : ℚ) (fix_size : Option ℚ) :
    (PIL2Tensor resize img upsacle min_size fix_size).tensor.shape.length = 3 ∧
    (PIL2Tensor resize img upsacle min_size fix_size).tensor.shape.headI = 3 ∧
    ((PIL2Tensor resize img upsacle min_size fix_size).tensor.shape.tail.all
      (fun n => n % 64 == 0)) = true := by
  have hW : ∀ im w h, (resize im w h).width = w := fun im w h => (hres im w h).1
  have hH : ∀ im w h, (resize im w h).height = h := fun im w h => (hres im w h).2
  refine ⟨?_, ?_, ?_⟩ <;>
    simp [PIL2Tensor, PIL2TensorTarget, hW, hH, Int.mul_emod_left]

/-- Witness for C1 at a concrete image and the default parameters. -/
theorem PIL2Tensor_shape_div64_witness :
    (PIL2Tensor resizeModel imgProbe 1 1024 none).tensor.shape.length = 3 ∧
    (PIL2Tensor resizeModel imgProbe 1 1024 none).tensor.shape.headI = 3 ∧
    ((PIL2Tensor resizeModel imgProbe 1 1024 none).tensor.shape.tail.all
      (fun n => n % 64 == 0)) = true :=
  PIL2Tensor_shape_div64 resizeModel (fun _ _ _ => ⟨rfl, rfl⟩) imgProbe
    1 1024 none

/-- C4: feeding the tensor and the pre-quantization dimensions returned by
`PIL2Tensor` into `Tensor2PIL` yields an image of exactly those
dimensions, for every image and parameters; and with upscale 1 and no
forced resize the pre-quantization dimensions are the original image
dimensions. -/
theorem Tensor2PIL_dims_roundtrip (resize : PILImage → ℤ → ℤ → PILImage)
    (interp : Tensor → ℤ → ℤ → Tensor)
    (hres : ∀ im w h, (resize im w h).width = w ∧ (resize im w h).height = h)
    (hint : ∀ (t : Tensor) (h w a b c d : ℤ), t.shape = [a, b, c, d] →
      (interp t h w).shape = [a, b, h, w])
    (img : PILImage) (upsacle min_size : ℚ) (fix_size : Option ℚ) :
    (Tensor2PIL interp (PIL2Tensor resize img upsacle min_size fix_size).tensor
        (PIL2Tensor resize img upsacle min_size fix_size).h0
        (PIL2Tensor resize img upsacle min_size fix_size).w0).width =
      (PIL2Tensor resize img upsacle min_size fix_size).w0 ∧
    (Tensor2PIL interp (PIL2Tensor resize img upsacle min_size fix_size).tensor
        (PIL2Tensor resize img upsacle min_size fix_size).h0
        (PIL2Tensor resize img upsacle min_size fix_size).w0).height =
      (PIL2Tensor resize img upsacle min_size fix_size).h0 ∧
    (PIL2Tensor resize img 1 min_size none).w0 = img.width ∧
    (PIL2Tensor resize img 1 min_size none).h0 = img.height := by
  have hW : ∀ im w h, (resize im w h).width = w := fun im w h => (hres im w h).1
  have hH : ∀ im w h, (resize im w h).height = h := fun im w h => (hres im w h).2
  have hsh : (PIL2Tensor resize img upsacle min_size fix_size).tensor.shape =
      [3, (PIL2TensorTarget img upsacle min_size fix_size).1.2,
          (PIL2TensorTarget img upsacle min_size fix_size).1.1] := by
    simp [PIL2Tensor, hW, hH]
  have hunsq :
      (PIL2Tensor resize img upsacle min_size fix_size).tensor.unsqueeze0.shape =
      [1, 3, (PIL2TensorTarget img upsacle min_size fix_size).1.2,
             (PIL2TensorTarget img upsacle min_size fix_size).1.1] := by
    simp [Tensor.unsqueeze0, hsh]
  have hi := hint
    (PIL2Tensor resize img upsacle min_size fix_size).tensor.unsqueeze0
    (PIL2Tensor resize img upsacle min_size fix_size).h0
    (PIL2Tensor resize img upsacle min_size fix_size).w0
    1 3
    (PIL2TensorTarget img upsacle min_size fix_size).1.2
    (PIL2TensorTarget img upsacle min_size fix_size).1.1
    hunsq
  refine ⟨?_, ?_, ?_, ?_⟩
  · simp only [Tensor2PIL, Tensor.squeeze0]
    rw [hi]
    rfl
  · simp only [Tensor2PIL, Tensor.squeeze0]
    rw [hi]
    rfl
  · simp [PIL2Tensor, PIL2TensorTarget, mul_one, roundHalfEven_intCast]
  · simp [PIL2Tensor, PIL2TensorTarget, mul_one, roundHalfEven_intCast]

/-- Witness for C4 at a concrete image, a size-honoring resampler and a
size-honoring interpolator. -/
theorem Tensor2PIL_dims_roundtrip_witness :
    (Tensor2PIL interpModel (PIL2Tensor resizeModel imgProbe 1 1024 none).tensor
        (PIL2Tensor resizeModel imgProbe 1 1024 none).h0
        (PIL2Tensor resizeModel imgProbe 1 1024 none).w0).width =
      (PIL2Tensor resizeModel imgProbe 1 1024 none).w0 ∧
    (Tensor2PIL interpModel (PIL2Tensor resizeModel imgProbe 1 1024 none).tensor
        (PIL2Tensor resizeModel imgProbe 1 1024 none).h0
        (PIL2Tensor resizeModel imgProbe 1 1024 none).w0).height =
      (PIL2Tensor resizeModel imgProbe 1 1024 none).h0 ∧
    (PIL2Tensor resizeModel imgProbe 1 1024 none).w0 = imgProbe.width ∧
    (PIL2Tensor resizeModel imgProbe 1 1024 none).h0 = imgProbe.height :=
  Tensor2PIL_dims_roundtrip resizeModel interpModel
    (fun _ _ _ => ⟨rfl, rfl⟩)
    (fun t h w a b c d ht => by simp [interpModel, ht])
    imgProbe 1 1024 none

/-- C2 counterexample: calling `create_SUPIR_model` with the invalid tag
`"X"` does raise the assertion, but only after the configuration file has
been read, the model instantiated, and the primary checkpoint loaded — all
three I/O steps are already in the trace when the assertion fires. -/
theorem c2run_io_precedes_assert :
    c2run.raised =
      some (PyErr.assertionError
        "supir_sign must be either \x27F\x27 or \x27Q\x27") ∧
    Event.configLoad "options/SUPIR_v0.yaml" ∈ c2run.events ∧
    Event.modelInstantiate ∈ c2run.events ∧
    Event.ckptApply "ckpt/sd_xl_base.safetensors" ∈ c2run.events := by
  refine ⟨rfl, ?_, ?_, ?_⟩ <;>
    simp [c2run, create_SUPIR_model, load_to_device, pathStr]

/-- C2 amended: a truthy `supir_sign` outside `{F, Q}` makes
`create_SUPIR_model` raise the assertion error, but only after the
configuration read, the model instantiation and the primary checkpoint
load step: the trace of the run with `supir_sign = None` is exactly the
invalid-tag trace followed by the single line-66 log line, so everything
up to the raise has already happened and the tag-selected checkpoint load
never runs; the parameter state matches the `None` run's. -/
theorem create_SUPIR_model_invalid_sign (fs : String → Bool)
    (applySD : String → ℕ → ℕ) (initParams : ℕ) (config_path : String)
    (config_SDXL_CKPT : Option String) (device : String)
    (ckpt : Option String) (s : String)
    (hs0 : s ≠ "") (hsF : s ≠ "F") (hsQ : s ≠ "Q") :
    (create_SUPIR_model fs applySD initParams config_path config_SDXL_CKPT
        (some s) device ckpt).raised =
      some (PyErr.assertionError
        "supir_sign must be either \x27F\x27 or \x27Q\x27") ∧
    (create_SUPIR_model fs applySD initParams config_path config_SDXL_CKPT
        none device ckpt).events =
      (create_SUPIR_model fs applySD initParams config_path config_SDXL_CKPT
        (some s) device ckpt).events ++ [finalLogLine config_path device] ∧
    (create_SUPIR_model fs applySD initParams config_path config_SDXL_CKPT
        (some s) device ckpt).params =
      (create_SUPIR_model fs applySD initParams config_path config_SDXL_CKPT
        none device ckpt).params ∧
    Event.configLoad config_path ∈
      (create_SUPIR_model fs applySD initParams config_path config_SDXL_CKPT
        (some s) device ckpt).events ∧
    Event.modelInstantiate ∈
      (create_SUPIR_model fs applySD initParams config_path config_SDXL_CKPT
        (some s) device ckpt).events := by
  have hFQ : ¬ (s = "F" ∨ s = "Q") := by simp [hsF, hsQ]
  refine ⟨?_, ?_, ?_, ?_, ?_⟩ <;>
    simp [create_SUPIR_model, hs0, hFQ]

/-- Witness for the amended C2 at the concrete invalid tag `"Z"`. -/
theorem create_SUPIR_model_invalid_sign_witness :
    (create_SUPIR_model (fun _ => false) (fun _ n => n) 0 "cfg.yaml"
        none (some "Z") "cpu" none).raised =
      some (PyErr.assertionError
        "supir_sign must be either \x27F\x27 or \x27Q\x27") ∧
    (create_SUPIR_model (fun _ => false) (fun _ n => n) 0 "cfg.yaml"
        none none "cpu" none).events =
      (create_SUPIR_model (fun _ => false) (fun _ n => n) 0 "cfg.yaml"
        none (some "Z") "cpu" none).events ++ [finalLogLine "cfg.yaml" "cpu"] ∧
    (create_SUPIR_model (fun _ => false) (fun _ n => n) 0 "cfg.yaml"
        none (some "Z") "cpu" none).params =
      (create_SUPIR_model (fun _ => false) (fun _ n => n) 0 "cfg.yaml"
        none none "cpu" none).params ∧
    Event.configLoad "cfg.yaml" ∈
      (create_SUPIR_model (fun _ => false) (fun _ n => n) 0 "cfg.yaml"
        none (some "Z") "cpu" none).events ∧
    Event.modelInstantiate ∈
      (create_SUPIR_model (fun _ => false) (fun _ n => n) 0 "cfg.yaml"
        none (some "Z") "cpu" none).events :=
  create_SUPIR_model_invalid_sign (fun _ => false) (fun _ n => n) 0
    "cfg.yaml" none "cpu" none "Z" (by decide) (by decide) (by decide)
